import Mathlib

/-!
# Verification of the arbitrarium interactive graph subsystem

A shallow embedding, in Lean 4, of the graph-related code of the arbitrarium
frontend: the graph-data adapters (`GraphViewD3`'s `graphData` memo,
`GraphView`'s `elements` mapping, `graphUtils.transformEnvironmentToGraphData`),
the pin layout (`calculatePinPositions`), the d3 force-simulation alpha
dynamics, the snapshot reconciliation (`GraphView.updateGraph`), the drag /
assignment gesture handlers of `GraphViewD3`, the assignment mutation handlers
(`MainLayout.handleFrameElementAssign`, `graphUtils.handleFrameElementAssignment`)
and the `addLink` operation of `useGraphData`.

Numbers are embedded as `ℚ` (exact rational arithmetic; the source uses IEEE
doubles but every computation proved about here stays well within exact range),
except the trigonometric pin placement which lives in `ℝ`.  JavaScript
truthiness tests on optional values are made explicit via `strTruthy` /
`numTruthy`.  JS `Map.get` is embedded as "value of the last `set` with that
key", which for the maps built here (sets in list order, key = node id) is
`(nodes.filter (key match)).getLast?`.
-/

namespace Arbitrarium

/-- JavaScript truthiness of an optional string: `undefined`/absent and `""`
are falsy, every other string is truthy. -/
def strTruthy : Option String → Option String
  | some s => if s = "" then none else some s
  | none => none

/-- JS `v || dflt` for an optional string operand. -/
def jsOrStr (v : Option String) (dflt : String) : String :=
  match strTruthy v with
  | some s => s
  | none => dflt

/-- JavaScript truthiness of an optional number: `undefined`/absent and `0`
are falsy. -/
def numTruthy : Option ℚ → Option ℚ
  | some v => if v = 0 then none else some v
  | none => none

/-! ## GraphViewD3's `graphData` memo (src/unnamed/part_007 lines 122-171) -/

/-- A frame element as carried inside the raw entity payload
(`Element` in types.ts): `value` may reference another entity id. -/
structure PElement where
  id : String
  name : Option String
  value : Option String
  deriving DecidableEq, Repr

/-- A frame attached to an entity in the raw payload. -/
structure PFrame where
  id : String
  elements : List PElement
  deriving DecidableEq, Repr

/-- A raw entity of the `GraphViewD3` payload.  `relatedTo` and
`relationships` are the optional relationship properties the memo reads;
an absent `relationships` array is embedded as `[]` (both contribute no
related ids). -/
structure PEntity where
  id : String
  name : Option String
  frames : List PFrame
  relatedTo : Option String
  relationships : List String
  deriving DecidableEq, Repr

/-- A node of the `graphData` memo (`GraphNode` in `GraphViewD3`); position
fields are only assigned later by the simulation, so they are not part of
the memo output. -/
structure DNode where
  id : String
  label : String
  entity : PEntity
  deriving DecidableEq, Repr

/-- A link of the `graphData` memo.  The source pushes references to the node
objects; we record their ids. -/
structure DLink where
  source : String
  target : String
  deriving DecidableEq, Repr

/-- Output shape of the memo. -/
structure DGraphData where
  nodes : List DNode
  links : List DLink
  deriving DecidableEq, Repr

/-- `nodeMap.get k` where `nodeMap` is the JS `Map` populated by
`nodeMap.set(node.id, node)` once per pushed node, in `nodes` order:
the value of the last `set` with key `k`. -/
def nodeMapGet (nodes : List DNode) (k : String) : Option DNode :=
  (nodes.filter (fun n => n.id == k)).getLast?

/-- The loop body of the link-creation `forEach` of the `graphData` memo:
collect `relatedTo` (if truthy) and `relationships`, and push one link per
related id whose lookup succeeds, provided the source itself resolves. -/
def linkStep (nodes : List DNode) (acc : List DLink) (e : PEntity) : List DLink :=
  let sourceNode := nodeMapGet nodes e.id
  let relatedIds :=
    (match strTruthy e.relatedTo with
     | some r => [r]
     | none => []) ++ e.relationships
  acc ++ relatedIds.filterMap (fun rid =>
    match sourceNode, nodeMapGet nodes rid with
    | some s, some t => some { source := s.id, target := t.id }
    | _, _ => none)

/-- The node-creation `forEach` of the `graphData` memo: one node per
entity, `id = entity.id.toString()`, `label = entity.name || "Node " + id`. -/
def dNodesOf (entities : List PEntity) : List DNode :=
  entities.map (fun e =>
    { id := e.id, label := jsOrStr e.name ("Node " ++ e.id), entity := e })

/-- The `graphData` `React.useMemo` of `GraphViewD3` (part_007 lines 122-171):
one node per entity, then links from the relationship properties.
Frames and their elements are never consulted for links. -/
def graphDataMemo (entities : List PEntity) : DGraphData :=
  if entities.isEmpty then ⟨[], []⟩ else
  ⟨dNodesOf entities, entities.foldl (linkStep (dNodesOf entities)) []⟩

/-- The scenario payload of claim C1:
`[{id:"1",name:"Jury"},{id:"2",name:"Player",frames:[{id:"f1",elements:[{id:"e1",name:"addressee",value:"1"}]}]}]`. -/
def c1Payload : List PEntity :=
  [ { id := "1", name := some "Jury", frames := [], relatedTo := none,
      relationships := [] },
    { id := "2", name := some "Player",
      frames := [ { id := "f1",
                    elements := [ { id := "e1", name := some "addressee",
                                    value := some "1" } ] } ],
      relatedTo := none, relationships := [] } ]

/-! ## GraphView's cytoscape `elements` mapping (GraphView.tsx lines 117-145) -/

/-- A raw entity as received by `GraphView` before defaulting: any field may
be absent in the JSON. -/
structure RawEntity where
  id : Option String
  name : Option String
  type : Option String
  deriving DecidableEq, Repr

/-- The data record of a cytoscape element produced by `GraphView`'s
`elements` mapping: `id: id || ''`, `label: name || 'Unnamed Entity'`. -/
structure CyElementData where
  id : String
  label : String
  deriving DecidableEq, Repr

/-- The `elements` mapping of `GraphView.tsx` (lines 117-145): one cytoscape
element per entity of the payload, with falsy ids defaulted to `""`.  No
entity is filtered out and no error is raised. -/
def elementsOf (data : List RawEntity) : List CyElementData :=
  data.map (fun e =>
    { id := jsOrStr e.id ""
      label := jsOrStr e.name "Unnamed Entity" })

/-- Modelled from the spec (claim C9's measure, not present in the code):
the number of distinct, non-empty entity ids of a payload. -/
def distinctNonemptyIdCount (data : List RawEntity) : Nat :=
  ((data.filterMap (fun e => strTruthy e.id)).dedup).length

/-- A C9 payload: a single entity whose id is absent. -/
def c9Payload : List RawEntity :=
  [ { id := none, name := some "X", type := none } ]

/-! ## graphUtils.transformEnvironmentToGraphData (graphUtils.ts lines 39-99) -/

/-- `LocalFrameElement` of graphUtils.ts (the fields the transform reads). -/
structure GUElement where
  id : String
  name : Option String
  type : Option String
  role : Option String
  deriving DecidableEq, Repr

/-- `Frame` of graphUtils.ts (numeric id, optional element list). -/
structure GUFrame where
  id : Int
  name : String
  elements : Option (List GUElement)
  deriving DecidableEq, Repr

/-- An entity as read by the transform (`Entity` of types.ts: string id). -/
structure GUEntity where
  id : String
  name : Option String
  deriving DecidableEq, Repr

/-- `Relationship` of graphUtils.ts: numeric entity endpoints. -/
structure GURelationship where
  source_entity : Int
  target_entity : Int
  relationship_type : String
  deriving DecidableEq, Repr

/-- The environment payload: each collection may be absent
(`frames?.forEach` etc. then iterates nothing). -/
structure GUEnvironment where
  id : String
  frames : Option (List GUFrame)
  entities : Option (List GUEntity)
  relationships : Option (List GURelationship)
  deriving DecidableEq, Repr

/-- Node type tags used by the transform (`'frame'` for frame nodes,
`'node'` for entity nodes). -/
inductive GUNodeKind
  | frame
  | node
  deriving DecidableEq, Repr

/-- `GraphNode` as produced by the transform (id, label, type tag). -/
structure GUNode where
  id : String
  label : String
  type : GUNodeKind
  deriving DecidableEq, Repr

/-- `GraphLink` as produced by the transform. -/
structure GULink where
  source : String
  target : String
  type : String
  label : String
  deriving DecidableEq, Repr

/-- `nodeMap.get k` for the map built by the transform (same last-set-wins
embedding as `nodeMapGet`). -/
def guNodeMapGet (nodes : List GUNode) (k : String) : Option GUNode :=
  (nodes.filter (fun n => n.id == k)).getLast?

/-- The nodes pushed by `transformEnvironmentToGraphData`: frame nodes
(`frame-` ++ id) then entity nodes (`entity-` ++ id), in source order. -/
def guNodesOf (env : GUEnvironment) : List GUNode :=
  (env.frames.getD []).map (fun f =>
    { id := "frame-" ++ toString f.id, label := f.name,
      type := GUNodeKind.frame }) ++
  (env.entities.getD []).map (fun e =>
    { id := "entity-" ++ e.id, label := jsOrStr e.name ("Entity " ++ e.id),
      type := GUNodeKind.node })

/-- The link a single relationship contributes, if both its endpoints
resolve in the node map (`if (source && target) links.push(...)`). -/
def guLinkOfRel (nodes : List GUNode) (rel : GURelationship) : Option GULink :=
  match guNodeMapGet nodes ("entity-" ++ toString rel.source_entity),
        guNodeMapGet nodes ("entity-" ++ toString rel.target_entity) with
  | some s, some t =>
    some { source := s.id, target := t.id, type := rel.relationship_type,
           label := rel.relationship_type }
  | _, _ => none

/-- `transformEnvironmentToGraphData` of graphUtils.ts (lines 39-99):
frame nodes, entity nodes, then one link per relationship both of whose
endpoints resolve in the node map; relationships with an unresolved
endpoint are dropped. -/
def transformEnvironmentToGraphData (env : GUEnvironment) :
    List GUNode × List GULink :=
  (guNodesOf env,
   (env.relationships.getD []).filterMap (guLinkOfRel (guNodesOf env)))

/-! ## Pin layout (`calculatePinPositions`, src/unnamed/part_017 lines 91-105) -/

/-- A frame element as carried on a graph node for pin rendering. -/
structure PinElement where
  id : String
  name : String
  deriving DecidableEq, Repr, Inhabited

/-- The inputs `calculatePinPositions` reads from a node: its frame elements
and its optional render radius (a number in the source; kept rational so the
`node.radius || 20` truthiness test stays decidable). -/
structure PinNode where
  id : String
  frameElements : List PinElement
  radius : Option ℚ
  deriving DecidableEq, Repr

/-- `node.radius || 20`: absent or zero radius falls back to the default 20. -/
def pinNodeRadius (node : PinNode) : ℚ :=
  match numTruthy node.radius with
  | some r => r
  | none => 20

/-- One computed pin: its offset from the node center, with its element. -/
structure PinPos where
  x : ℝ
  y : ℝ
  element : PinElement
  deriving Inhabited

/-- `calculatePinPositions` of the `GraphNodes` component (part_017 lines
91-105): for element `index` of `n`, angle `index * (2π/n) − π/2`, offset
`(cos angle, sin angle) * (radius + 15)`. -/
noncomputable def calculatePinPositions (node : PinNode) : List PinPos :=
  if node.frameElements.isEmpty then [] else
  let radius : ℝ := (pinNodeRadius node : ℚ)
  let angleStep : ℝ := (2 * Real.pi) / (node.frameElements.length : ℝ)
  node.frameElements.mapIdx (fun index element =>
    let angle : ℝ := (index : ℝ) * angleStep - Real.pi / 2
    { x := Real.cos angle * (radius + 15)
      y := Real.sin angle * (radius + 15)
      element := element })

/-! ## Simulation alpha dynamics (d3-force; configured in part_007 lines 335-347)

d3-force advances `alpha` once per tick by
`alpha += (alphaTarget - alpha) * alphaDecay`, and its stepper — like the
component's own tick handler — stops the simulation when `alpha < alphaMin`.
`GraphViewD3` configures `alphaDecay(0.05).velocityDecay(0.6).alphaTarget(0.1)
.alpha(1).restart()` and leaves `alphaMin` at the d3 default `0.001`. -/

/-- One alpha step of d3-force: `alpha += (alphaTarget - alpha) * alphaDecay`. -/
def stepAlpha (alphaTarget alphaDecay a : ℚ) : ℚ :=
  a + (alphaTarget - a) * alphaDecay

/-- Alpha after `n` ticks from initial value `a0`. -/
def alphaAfter (alphaTarget alphaDecay a0 : ℚ) : ℕ → ℚ
  | 0 => a0
  | n + 1 => stepAlpha alphaTarget alphaDecay (alphaAfter alphaTarget alphaDecay a0 n)

/-- `simulation.alphaTarget(0.1)` as set by `GraphViewD3`. -/
def gvAlphaTarget : ℚ := 1 / 10

/-- `simulation.alphaDecay(0.05)` as set by `GraphViewD3`. -/
def gvAlphaDecay : ℚ := 1 / 20

/-- The d3-force default `alphaMin` (never overridden by the component). -/
def gvAlphaMin : ℚ := 1 / 1000

/-- `simulation.alpha(1)` as set by `GraphViewD3` on (re)start. -/
def gvInitialAlpha : ℚ := 1

/-- Alpha after `n` ticks of the simulation exactly as `GraphViewD3`
configures it. -/
def gvAlphaAfter (n : ℕ) : ℚ :=
  alphaAfter gvAlphaTarget gvAlphaDecay gvInitialAlpha n

/-- The auto-stop condition checked by the tick handler (part_007 lines
335-340) and by d3's own stepper: `alpha < alphaMin` after tick `n`. -/
def gvAutoStopFires (n : ℕ) : Prop :=
  gvAlphaAfter n < gvAlphaMin

/-! ## Snapshot reconciliation (`updateGraph`, GraphView.tsx lines 221-310) -/

/-- A rendered cytoscape node: its id and current position. -/
structure RenderedNode where
  id : String
  x : ℚ
  y : ℚ
  deriving DecidableEq, Repr

/-- The position snapshot taken at the top of `updateGraph`
(`positions[node.id()] = node.position()`): for a JS object keyed by id the
read gives the value of the last write, i.e. the position of the last
rendered node with that id. -/
def savedPosition (prev : List RenderedNode) (id : String) : Option (ℚ × ℚ) :=
  ((prev.filter (fun n => n.id == id)).getLast?).map (fun n => (n.x, n.y))

/-- `updateGraph` of `GraphView.tsx` (lines 221-310), as a function of the
currently rendered nodes `prev`, the new snapshot's element ids `elements`
(new elements are defined with `position: {x: 0, y: 0}`), and the layout's
position assignment `layoutPos` (cose-bilkent; only consulted when the
previous snapshot had no rendered nodes):
1. save all current positions;
2. remove rendered elements whose id is not in the new snapshot;
3. add elements whose id was not rendered, at `(0, 0)`;
4. restore every surviving node's saved position;
5. run the layout only when no position existed before (first load). -/
def updateGraph (prev : List RenderedNode) (elements : List String)
    (layoutPos : String → ℚ × ℚ) : List RenderedNode :=
  let kept := prev.filter (fun n => elements.contains n.id)
  let added := (elements.filter
      (fun i => ¬ prev.any (fun n => n.id == i))).map
    (fun i => { id := i, x := 0, y := 0 : RenderedNode })
  let updated := kept ++ added
  let restored := updated.map (fun n =>
    match savedPosition prev n.id with
    | some p => { n with x := p.1, y := p.2 }
    | none => n)
  if prev.isEmpty ∧ ¬ elements.isEmpty then
    restored.map (fun n =>
      { n with x := (layoutPos n.id).1, y := (layoutPos n.id).2 })
  else restored

/-- Position of the rendered node with the given id after reconciliation
(cytoscape ids are unique; first match). -/
def renderedPosition (nodes : List RenderedNode) (id : String) : Option (ℚ × ℚ) :=
  (nodes.find? (fun n => n.id == id)).map (fun n => (n.x, n.y))

/-! ## Node drag and assignment gesture (`GraphViewD3`, src/unnamed/part_007)

Two d3 drag behaviors are attached to each rendered node:

* on the node circle, the assignment drag
  (`handleNodeDragStart/Drag/End`, lines 505-571) with filter
  `(ctrlKey || metaKey) && button === 0` (line 629) — without the modifier
  the gesture never starts;
* on the node group, the reposition drag (`drag(simulation)`, lines
  861-948) — `dragstarted` detaches its own move/end handlers when
  Ctrl/Meta is held; otherwise a 100 ms timer turns the press into a drag
  that pins `fx`/`fy`, `dragged` moves the pin to the pointer, and
  `dragended` releases the pin (`fx = fy = null`).

The two behaviors and the component state they touch are embedded as one
state record plus a step function over pointer events. -/

/-- A simulation node as the gesture handlers see it (`GraphNode` of
`GraphViewD3`): optional current position, optional pinned position. -/
structure GestureNode where
  id : String
  x : Option ℚ
  y : Option ℚ
  fx : Option ℚ
  fy : Option ℚ
  deriving DecidableEq, Repr

/-- The component/ref state read and written by the drag handlers. -/
structure GestureState where
  nodes : List GestureNode
  links : List DLink
  isDraggingRef : Bool
  dragStartNode : Option String
  dragEndPos : Option (ℚ × ℚ)
  tempLinkVisible : Bool
  showDialog : Bool
  assignmentData : Option (String × String)
  selectedNode : Option String
  repoSkipped : Bool
  repoIsDragging : Bool
  draggedNode : Option String
  deriving DecidableEq, Repr

/-- The filter of the assignment drag behavior (part_007 line 629):
`(event.ctrlKey || event.metaKey) && event.button === 0`. -/
def assignmentDragFilter (ctrl meta button0 : Bool) : Bool :=
  (ctrl || meta) && button0

/-- The 20 px hit test of `handleNodeDragEnd` (lines 548-553).  The source
computes `Math.sqrt(dx*dx + dy*dy) < 20` after bailing out on falsy
`n.x`/`n.y`; for nonnegative radicands that comparison is equivalent to
`dx² + dy² < 400`, which keeps the test rational. -/
def hitTest (p : ℚ × ℚ) (n : GestureNode) : Bool :=
  match numTruthy n.x, numTruthy n.y with
  | some nx, some ny =>
    decide ((nx - p.1) * (nx - p.1) + (ny - p.2) * (ny - p.2) < 400)
  | _, _ => false

/-- `handleNodeDragStart` (lines 505-523): record the source node, show the
temporary link. -/
def handleNodeDragStart (s : GestureState) (d : String) : GestureState :=
  { s with isDraggingRef := true, dragStartNode := some d,
           tempLinkVisible := true }

/-- `handleNodeDrag` (lines 526-535): track the pointer as the temporary
link's endpoint. -/
def handleNodeDrag (s : GestureState) (ex ey : ℚ) : GestureState :=
  if ¬ s.isDraggingRef then s
  else { s with dragEndPos := some (ex, ey) }

/-- `handleNodeDragEnd` (lines 538-571): hide the temporary link; if the
drop point hits a node other than the source, store the assignment data and
open the confirmation dialog; in every case clear the drag refs.  Links and
node positions are never touched. -/
def handleNodeDragEnd (s : GestureState) : GestureState :=
  if ¬ s.isDraggingRef then s
  else
    let s1 := { s with tempLinkVisible := false }
    let s2 :=
      match s1.dragEndPos with
      | none => s1
      | some p =>
        match s1.nodes.find? (hitTest p) with
        | none => s1
        | some target =>
          match s1.dragStartNode with
          | none => s1
          | some src =>
            if target.id ≠ src then
              { s1 with assignmentData := some (src, target.id),
                        showDialog := true }
            else s1
    { s2 with isDraggingRef := false, dragStartNode := none,
              dragEndPos := none }

/-- Update the dragged node (matched by id) in the node list. -/
def updateNodeById (nodes : List GestureNode) (d : String)
    (f : GestureNode → GestureNode) : List GestureNode :=
  nodes.map (fun n => if n.id == d then f n else n)

/-- The 100 ms drag-check timer of `dragstarted` (lines 883-897) firing:
the press becomes a reposition drag and the node is pinned at its current
position (`d.fx = d.x; d.fy = d.y`). -/
def repoTimerFires (s : GestureState) : GestureState :=
  if s.repoIsDragging then s
  else
    match s.draggedNode with
    | none => s
    | some d =>
      { s with repoIsDragging := true,
               nodes := updateNodeById s.nodes d
                 (fun n => { n with fx := n.x, fy := n.y }) }

/-- `dragged` of the reposition behavior (lines 910-919): move the pin to
the pointer (`d.fx = event.x; d.fy = event.y`). -/
def repoDragged (s : GestureState) (ex ey : ℚ) : GestureState :=
  if ¬ s.repoIsDragging then s
  else
    match s.draggedNode with
    | none => s
    | some d =>
      { s with nodes := updateNodeById s.nodes d
                 (fun n => { n with fx := some ex, fy := some ey }) }

/-- `dragended` of the reposition behavior (lines 921-948): a press that
never became a drag toggles selection; a drag releases the pin
(`d.fx = null; d.fy = null`) but keeps the position. -/
def repoDragEnded (s : GestureState) : GestureState :=
  if ¬ s.repoIsDragging then
    match s.draggedNode with
    | none => s
    | some d =>
      { s with selectedNode := if s.selectedNode == some d then none else some d }
  else
    { s with repoIsDragging := false,
             nodes := updateNodeById s.nodes
               (s.draggedNode.getD "") (fun n => { n with fx := none, fy := none }) }

/-- Raw pointer events driving both drag behaviors. -/
inductive GestureEvent
  | pointerDown (nodeId : String) (ctrl meta button0 : Bool)
  | timer
  | pointerMove (x y : ℚ)
  | pointerUp
  deriving DecidableEq, Repr

/-- Dispatch of one pointer event to the two drag behaviors.  On
pointer-down, the assignment behavior starts only if its filter passes
(`handleNodeDragStart` also stops propagation, so the reposition behavior is
skipped whenever Ctrl/Meta is held — matching `dragstarted`'s own modifier
check).  Later events reach the assignment handlers only while
`isDraggingRef` is set, and reach the reposition handlers only when they
were not detached. -/
def gestureStep (s : GestureState) (e : GestureEvent) : GestureState :=
  match e with
  | .pointerDown d ctrl meta button0 =>
    let s := { s with draggedNode := some d }
    let s := if assignmentDragFilter ctrl meta button0
             then handleNodeDragStart s d else s
    { s with repoSkipped := ctrl || meta }
  | .timer =>
    if s.repoSkipped then s else repoTimerFires s
  | .pointerMove x y =>
    let s := if s.isDraggingRef then handleNodeDrag s x y else s
    if s.repoSkipped then s else repoDragged s x y
  | .pointerUp =>
    let s := if s.isDraggingRef then handleNodeDragEnd s else s
    if s.repoSkipped then s else repoDragEnded s

/-- Run a sequence of pointer events. -/
def runGesture (s : GestureState) (es : List GestureEvent) : GestureState :=
  es.foldl gestureStep s

/-- The quiescent component state over a given graph: nothing selected, no
drag in progress, no dialog. -/
def initGestureState (nodes : List GestureNode) (links : List DLink) :
    GestureState :=
  { nodes := nodes, links := links, isDraggingRef := false,
    dragStartNode := none, dragEndPos := none, tempLinkVisible := false,
    showDialog := false, assignmentData := none, selectedNode := none,
    repoSkipped := false, repoIsDragging := false, draggedNode := none }

/-! ## Assignment mutation handlers (MainLayout.tsx lines 41-68 and
graphUtils.ts lines 104-159) -/

/-- The assignment proposed by the gesture (`FrameElementAssignment`). -/
structure FrameElementAssignment where
  frameId : String
  elementId : String
  role : Option String
  deriving DecidableEq, Repr

/-- Outcome of the mutation endpoint call as the handler observes it:
`apiRequest` / `fetch` either resolves or throws. -/
inductive ApiOutcome
  | success
  | failure (detail : String)
  deriving DecidableEq, Repr

/-- A toast notification raised by the handler. -/
inductive Notification
  | success (msg : String)
  | error (msg : String)
  deriving DecidableEq, Repr

/-- What `MainLayout.handleFrameElementAssign` (lines 41-68) does after the
endpoint call: the notification it raises and the environment refresh it
triggers (`onEnvSelected({...currentEnv})` on success; nothing on failure —
no local state of any kind is written in the catch branch).  An absent role
renders as the string "undefined" in the JS template literal of the success
toast. -/
def handleFrameElementAssign (a : FrameElementAssignment)
    (outcome : ApiOutcome) (currentEnv : Option GUEnvironment) :
    Notification × Option GUEnvironment :=
  match outcome with
  | .success =>
    (Notification.success
      ("Successfully assigned element as '" ++ (a.role.getD "undefined") ++ "'"),
     currentEnv)
  | .failure _ =>
    (Notification.error "Failed to assign frame element. Please try again.",
     none)

/-- The element record pushed by `graphUtils.handleFrameElementAssignment`
on success. -/
def assignmentElement (a : FrameElementAssignment) (element : GUEntity) :
    GUElement :=
  { id := a.elementId,
    name := some (jsOrStr element.name ("Element " ++ a.elementId)),
    type := some "entity", role := some (a.role.getD "element") }

/-- Push the new element onto the matched frame's element list
(`frame.elements = frame.elements || []; frame.elements.push(...)`). -/
def pushElementOnFrame (a : FrameElementAssignment) (element : GUEntity)
    (f : GUFrame) : GUFrame :=
  if toString f.id == a.frameId then
    { f with elements := some (f.elements.getD [] ++ [assignmentElement a element]) }
  else f

/-- The successful-response branch of `handleFrameElementAssignment`: the
environment with the new element pushed onto the matched frame (when both
the frame and the element entity are found; the source mutates the found
frame in place, which is the matched-id map below). -/
def applyAssignment (a : FrameElementAssignment) (env : GUEnvironment) :
    GUEnvironment :=
  match (env.frames.getD []).find? (fun f => toString f.id == a.frameId) with
  | none => env
  | some _ =>
    match (env.entities.getD []).find? (fun e => e.id == a.elementId) with
    | none => env
    | some element =>
      { env with
        frames := some ((env.frames.getD []).map (pushElementOnFrame a element)) }

/-- `graphUtils.handleFrameElementAssignment` (lines 104-159): with no
current environment it returns without doing anything; otherwise, if the
POST fails it throws (`Except.error`) without building any updated state,
and if it succeeds it returns the environment with the new element pushed
onto the matched frame's element list. -/
def handleFrameElementAssignment (a : FrameElementAssignment)
    (currentEnv : Option GUEnvironment) (responseOk : Bool) :
    Except String (Option GUEnvironment) :=
  match currentEnv with
  | none => Except.ok none
  | some env =>
    if ¬ responseOk then Except.error "Failed to assign frame element"
    else Except.ok (some (applyAssignment a env))

/-! ## `addLink` of `useGraphData`
(components/graph/hooks/useGraphData.ts lines 104-124) -/

/-- A link held in the hook's state (`GraphLink`: string endpoints as
added, optional type). -/
structure HookLink where
  source : String
  target : String
  type : Option String
  deriving DecidableEq, Repr

/-- `addLink`'s `source`/`target` arguments: a node id string or a node
object (of which only the id is consulted). -/
inductive NodeRef
  | str (s : String)
  | node (id : String)
  deriving DecidableEq, Repr

/-- `typeof source === 'string' ? source : source.id`. -/
def resolveNodeRef : NodeRef → String
  | .str s => s
  | .node id => id

/-- The duplicate check of `addLink`: a link between the two ids already
exists in either direction. -/
def linkExistsB (links : List HookLink) (sourceId targetId : String) : Bool :=
  links.any (fun link =>
    (link.source == sourceId && link.target == targetId) ||
    (link.source == targetId && link.target == sourceId))

/-- `addLink` of `useGraphData` (lines 104-124): resolve the endpoint ids;
if a link already exists in either direction return `null` and leave the
state alone, otherwise append the new link and return it.  The result pairs
the returned value with the new `links` state. -/
def addLink (links : List HookLink) (source target : NodeRef)
    (type : Option String) : Option HookLink × List HookLink :=
  let sourceId := resolveNodeRef source
  let targetId := resolveNodeRef target
  if linkExistsB links sourceId targetId then (none, links)
  else
    let newLink : HookLink := { source := sourceId, target := targetId, type := type }
    (some newLink, links ++ [newLink])

/-- Run a sequence of `addLink` calls against the hook state. -/
def runAddLinks (calls : List (NodeRef × NodeRef × Option String)) :
    List HookLink :=
  calls.foldl (fun links c => (addLink links c.1 c.2.1 c.2.2).2) []

/-- Two links relate the same unordered pair of node ids. -/
def sameUnorderedPair (a b : HookLink) : Prop :=
  (a.source = b.source ∧ a.target = b.target) ∨
  (a.source = b.target ∧ a.target = b.source)

/-- The link set contains at most one link per unordered pair of node ids. -/
def atMostOnePerPair (links : List HookLink) : Prop :=
  links.Pairwise (fun a b => ¬ sameUnorderedPair a b)

/-! ## Concrete inputs used to witness the universally quantified theorems -/

/-- A small environment with two entities and one resolvable relationship. -/
def guEnvExample : GUEnvironment :=
  { id := "env-1", frames := none,
    entities := some [ { id := "1", name := some "A" },
                       { id := "2", name := some "B" } ],
    relationships := some [ { source_entity := 1, target_entity := 2,
                              relationship_type := "knows" } ] }

/-- The single link `transformEnvironmentToGraphData` derives from
`guEnvExample`. -/
def guLinkExample : GULink :=
  { source := "entity-1", target := "entity-2", type := "knows",
    label := "knows" }

/-- A hook link state already containing a link between "a" and "b". -/
def hookLinksExample : List HookLink :=
  [ { source := "a", target := "b", type := none } ]

/-- A node with one frame element and no explicit radius. -/
def pinNodeExample : PinNode :=
  { id := "1",
    frameElements := [ { id := "e1", name := "addressee" } ],
    radius := none }

/-- A two-node graph for gesture runs: node "1" at (50, 50), node "2" at
(200, 200), neither pinned. -/
def gestureNodesExample : List GestureNode :=
  [ { id := "1", x := some 50, y := some 50, fx := none, fy := none },
    { id := "2", x := some 200, y := some 200, fx := none, fy := none } ]

/-- A component state in the middle of an assignment drag from node "1",
with the pointer released back over node "1" itself — no other node is
within the 20 px hit radius. -/
def c6StateExample : GestureState :=
  { initGestureState gestureNodesExample [ { source := "1", target := "2" } ] with
    isDraggingRef := true, dragStartNode := some "1",
    dragEndPos := some (50, 50) }

/-- The pointer sequence of an ordinary (modifier-less, main-button)
reposition drag on node `d`: press, the 100 ms drag-delay timer, some
moves, a final move to `(x, y)`.  The release (`pointerUp`) is applied
separately so the state both during and after the drag can be observed. -/
def c7Events (d : String) (moves : List (ℚ × ℚ)) (x y : ℚ) :
    List GestureEvent :=
  GestureEvent.pointerDown d false false true :: GestureEvent.timer ::
    (moves.map (fun p => GestureEvent.pointerMove p.1 p.2) ++
      [GestureEvent.pointerMove x y])

/-! ## Helper lemmas -/

/-- A successful `nodeMapGet` lookup returns a pushed node carrying the
looked-up id. -/
theorem nodeMapGet_mem {nodes : List DNode} {k : String} {n : DNode}
    (h : nodeMapGet nodes k = some n) : n ∈ nodes ∧ n.id = k := by
  unfold nodeMapGet at h
  have hmem := List.mem_of_mem_getLast? h
  rw [List.mem_filter] at hmem
  exact ⟨hmem.1, by simpa using hmem.2⟩

/-- A successful `guNodeMapGet` lookup returns a pushed node carrying the
looked-up id. -/
theorem guNodeMapGet_mem {nodes : List GUNode} {k : String} {n : GUNode}
    (h : guNodeMapGet nodes k = some n) : n ∈ nodes ∧ n.id = k := by
  unfold guNodeMapGet at h
  have hmem := List.mem_of_mem_getLast? h
  rw [List.mem_filter] at hmem
  exact ⟨hmem.1, by simpa using hmem.2⟩

/-- Every link produced by one pass of the link-creation loop body either
was already accumulated or has both endpoints among the node ids. -/
theorem mem_linkStep {nodes : List DNode} {acc : List DLink} {e : PEntity}
    {l : DLink} (h : l ∈ linkStep nodes acc e) :
    l ∈ acc ∨
      ((∃ n ∈ nodes, n.id = l.source) ∧ (∃ n ∈ nodes, n.id = l.target)) := by
  unfold linkStep at h
  rw [List.mem_append] at h
  rcases h with h | h
  · exact Or.inl h
  · right
    rw [List.mem_filterMap] at h
    obtain ⟨rid, _, heq⟩ := h
    cases hs : nodeMapGet nodes e.id with
    | none => rw [hs] at heq; cases heq
    | some s =>
      cases ht : nodeMapGet nodes rid with
      | none => rw [hs, ht] at heq; cases heq
      | some t =>
        rw [hs, ht] at heq
        cases heq
        exact ⟨⟨s, (nodeMapGet_mem hs).1, rfl⟩, ⟨t, (nodeMapGet_mem ht).1, rfl⟩⟩

/-- Folding the link-creation loop preserves endpoint resolution. -/
theorem mem_foldl_linkStep {nodes : List DNode} (es : List PEntity)
    (acc : List DLink) {l : DLink}
    (h : l ∈ es.foldl (linkStep nodes) acc) :
    l ∈ acc ∨
      ((∃ n ∈ nodes, n.id = l.source) ∧ (∃ n ∈ nodes, n.id = l.target)) := by
  induction es generalizing acc with
  | nil => exact Or.inl (by simpa using h)
  | cons e es ih =>
    rcases ih (linkStep nodes acc e) (by simpa using h) with h' | h'
    · exact mem_linkStep h'
    · exact Or.inr h'

/-- On a list with pairwise-distinct keys, the first key match is also the
last match of the key filter (so the JS object snapshot and the unique
rendered node agree). -/
theorem find?_key_eq_getLast?_filter {α : Type} (f : α → String) (k : String)
    (l : List α) (h : (l.map f).Nodup) :
    l.find? (fun a => f a == k) = (l.filter (fun a => f a == k)).getLast? := by
  induction l with
  | nil => rfl
  | cons a t ih =>
    rw [List.map_cons, List.nodup_cons] at h
    by_cases hk : (f a == k) = true
    · rw [@List.find?_cons_of_pos _ (fun b => f b == k) a t hk,
          @List.filter_cons_of_pos _ (fun b => f b == k) a t hk]
      have ht : t.filter (fun b => f b == k) = [] := by
        rw [List.filter_eq_nil_iff]
        intro b hb hbk
        apply h.1
        rw [List.mem_map]
        refine ⟨b, hb, ?_⟩
        have h1 : f b = k := by simpa using hbk
        have h2 : f a = k := by simpa using hk
        rw [h1, h2]
      rw [ht, List.getLast?_singleton]
    · rw [@List.find?_cons_of_neg _ (fun b => f b == k) a t hk,
          @List.filter_cons_of_neg _ (fun b => f b == k) a t hk]
      exact ih h.2

/-- Filtering by a predicate the found element satisfies does not change the
result of `find?`. -/
theorem find?_filter_keep {α : Type} {p q : α → Bool} {l : List α} {n : α}
    (h : l.find? p = some n) (hq : q n = true) :
    (l.filter q).find? p = some n := by
  induction l with
  | nil => cases h
  | cons a t ih =>
    by_cases hp : p a = true
    · rw [List.find?_cons_of_pos _ hp] at h
      cases h
      rw [List.filter_cons_of_pos hq, List.find?_cons_of_pos _ hp]
    · rw [List.find?_cons_of_neg _ hp] at h
      by_cases hqa : q a = true
      · rw [List.filter_cons_of_pos hqa, List.find?_cons_of_neg _ hp]
        exact ih h
      · rw [List.filter_cons_of_neg hqa]
        exact ih h

/-! ## Claim C1 — graph-data adapter on the two-entity scenario payload -/

/-- C1, counterexample.  The claim asserts the scenario payload yields
exactly one link (from entity 2's node to entity 1's node, labelled
"addressee").  The adapter derives links only from the `relatedTo` /
`relationships` properties — never from frame elements — so this payload
yields no link at all. -/
theorem c1_scenario_yields_no_link :
    (graphDataMemo c1Payload).nodes.length = 2 ∧
      ¬ ((graphDataMemo c1Payload).links.length = 1) := by
  decide

/-- C1, amended: the scenario payload yields exactly 2 nodes, with stable
ids `"1"` and `"2"` (the entity ids), and exactly 0 links — frame elements
are rendered as IO pins, not links, and no relationship property is
present. -/
theorem c1_scenario_two_nodes_zero_links :
    ((graphDataMemo c1Payload).nodes.map (fun n => n.id)) = ["1", "2"] ∧
      (graphDataMemo c1Payload).links = [] := by
  decide

/-! ## Claim C4 — simulation convergence -/

/-- Alpha never drops below the configured `alphaTarget` of 0.1: each tick
moves it from `a` to `a + (0.1 − a)·0.05`, a convex combination staying at
or above 0.1 once at or above it. -/
theorem gvAlphaAfter_ge_target (n : ℕ) : gvAlphaTarget ≤ gvAlphaAfter n := by
  induction n with
  | zero =>
    norm_num [gvAlphaAfter, alphaAfter, gvAlphaTarget, gvInitialAlpha]
  | succ n ih =>
    unfold gvAlphaAfter alphaAfter stepAlpha
    unfold gvAlphaAfter at ih
    unfold gvAlphaTarget gvAlphaDecay at ih ⊢
    linarith

/-- C4: with the source's configuration (`alphaDecay = 0.05`,
`alphaTarget = 0.1`, `alpha = 1`, default `alphaMin = 0.001`), alpha stays
at or above 0.1 > alphaMin after every number of ticks, so the auto-stop
condition `alpha < alphaMin` of the tick handler (and of d3's stepper)
never fires: repeated ticking never drives alpha below alphaMin and ticking
never stops automatically, contradicting the claimed bounded convergence
(and the code's own "Auto-stop simulation" comment). -/
theorem c4_auto_stop_never_fires (n : ℕ) :
    gvAlphaMin ≤ gvAlphaAfter n ∧ ¬ gvAutoStopFires n := by
  have h := gvAlphaAfter_ge_target n
  have hmin : gvAlphaMin ≤ gvAlphaTarget := by
    norm_num [gvAlphaMin, gvAlphaTarget]
  refine ⟨le_trans hmin h, ?_⟩
  unfold gvAutoStopFires
  exact not_lt.mpr (le_trans hmin h)

/-! ## Claim C9 — node count versus distinct non-empty entity ids -/

/-- C9, counterexample: an entity lacking an id is not excluded — it is
mapped to a cytoscape element with id defaulted to `""` — so for the
one-entity payload without an id the node count (1) differs from the number
of distinct non-empty entity ids (0). -/
theorem c9_missing_id_still_counted :
    ¬ ((elementsOf c9Payload).length = distinctNonemptyIdCount c9Payload) := by
  decide

/-- C9, amended: both adapters produce exactly one node per entity of the
payload — entities lacking an id are kept (with id defaulted to `""` by
`GraphView`), duplicates are not collapsed, and no error is raised (the
mappings are total). -/
theorem c9_one_node_per_entity :
    (∀ data : List RawEntity, (elementsOf data).length = data.length) ∧
      (∀ entities : List PEntity,
        (graphDataMemo entities).nodes.length = entities.length) := by
  constructor
  · intro data
    simp [elementsOf]
  · intro entities
    by_cases h : entities.isEmpty
    · simp [graphDataMemo, h, List.isEmpty_iff.mp h]
    · simp [graphDataMemo, h, dNodesOf]

/-! ## Claim C5 — links always resolve to nodes of the same snapshot -/

/-- C5: in every node/link model produced by the graph-data adapters —
`transformEnvironmentToGraphData` on an environment, and the `graphData`
memo on an entity payload — both endpoints of every link are ids of nodes
present in the same snapshot; a relationship or relatedTo/relationships
reference with an unresolved endpoint yields no link. -/
theorem c5_links_resolve_to_nodes :
    (∀ env : GUEnvironment, ∀ l ∈ (transformEnvironmentToGraphData env).2,
      (∃ n ∈ (transformEnvironmentToGraphData env).1, n.id = l.source) ∧
      (∃ n ∈ (transformEnvironmentToGraphData env).1, n.id = l.target)) ∧
    (∀ entities : List PEntity, ∀ l ∈ (graphDataMemo entities).links,
      (∃ n ∈ (graphDataMemo entities).nodes, n.id = l.source) ∧
      (∃ n ∈ (graphDataMemo entities).nodes, n.id = l.target)) := by
  constructor
  · intro env l hl
    have hl' : l ∈ (env.relationships.getD []).filterMap
        (guLinkOfRel (guNodesOf env)) := hl
    rw [List.mem_filterMap] at hl'
    obtain ⟨rel, _, heq⟩ := hl'
    unfold guLinkOfRel at heq
    cases hs : guNodeMapGet (guNodesOf env) ("entity-" ++ toString rel.source_entity) with
    | none => rw [hs] at heq; cases heq
    | some s =>
      cases ht : guNodeMapGet (guNodesOf env) ("entity-" ++ toString rel.target_entity) with
      | none => rw [hs, ht] at heq; cases heq
      | some t =>
        rw [hs, ht] at heq
        cases heq
        exact ⟨⟨s, (guNodeMapGet_mem hs).1, rfl⟩,
               ⟨t, (guNodeMapGet_mem ht).1, rfl⟩⟩
  · intro entities l hl
    by_cases h : entities.isEmpty
    · simp [graphDataMemo, h] at hl
    · have hlinks : (graphDataMemo entities).links =
          entities.foldl (linkStep (dNodesOf entities)) [] := by
        simp [graphDataMemo, h]
      have hnodes : (graphDataMemo entities).nodes = dNodesOf entities := by
        simp [graphDataMemo, h]
      rw [hlinks] at hl
      rcases mem_foldl_linkStep entities [] hl with h' | h'
      · cases h'
      · rw [hnodes]
        exact h'

/-- C5, witness: the resolvable relationship of `guEnvExample` yields the
link `guLinkExample`, whose endpoints resolve to nodes of the snapshot. -/
theorem c5_links_resolve_witness :
    (∃ n ∈ (transformEnvironmentToGraphData guEnvExample).1,
      n.id = guLinkExample.source) ∧
    (∃ n ∈ (transformEnvironmentToGraphData guEnvExample).1,
      n.id = guLinkExample.target) :=
  c5_links_resolve_to_nodes.1 guEnvExample guLinkExample (by decide)

/-! ## Claim C8 — assignment mutation result handling -/

/-- C8: when the assignment endpoint call fails, `handleFrameElementAssign`
raises the error notification and triggers no environment refresh (no local
graph mutation), and `handleFrameElementAssignment` of graphUtils throws
without constructing any updated environment; when it succeeds,
`handleFrameElementAssign` raises the success notification and refreshes
the current environment. -/
theorem c8_assignment_result_handling :
    (∀ a : FrameElementAssignment, ∀ env : Option GUEnvironment, ∀ detail : String,
      handleFrameElementAssign a (ApiOutcome.failure detail) env =
        (Notification.error "Failed to assign frame element. Please try again.",
         none)) ∧
    (∀ a : FrameElementAssignment, ∀ env : Option GUEnvironment,
      handleFrameElementAssign a ApiOutcome.success env =
        (Notification.success
          ("Successfully assigned element as '" ++ (a.role.getD "undefined") ++ "'"),
         env)) ∧
    (∀ a : FrameElementAssignment, ∀ env : GUEnvironment,
      handleFrameElementAssignment a (some env) false =
        Except.error "Failed to assign frame element") := by
  exact ⟨fun _ _ _ => rfl, fun _ _ => rfl, fun _ _ => rfl⟩

/-! ## Claim C10 — addLink rejects duplicate unordered pairs -/

/-- Appending through `addLink` preserves the at-most-one-link-per-
unordered-pair invariant: a new link is only appended if no existing link
matches it in either direction. -/
theorem addLink_preserves_atMostOnePerPair {links : List HookLink}
    (h : atMostOnePerPair links) (s t : NodeRef) (ty : Option String) :
    atMostOnePerPair (addLink links s t ty).2 := by
  unfold addLink
  by_cases hex : linkExistsB links (resolveNodeRef s) (resolveNodeRef t)
  · simpa [hex] using h
  · simp only [hex, Bool.false_eq_true, if_false]
    unfold atMostOnePerPair at h ⊢
    rw [List.pairwise_append]
    refine ⟨h, List.pairwise_singleton _ _, ?_⟩
    intro a ha b hb
    rw [List.mem_singleton] at hb
    subst hb
    unfold linkExistsB at hex
    rw [List.any_eq_true] at hex
    intro hsame
    apply hex
    refine ⟨a, ha, ?_⟩
    rcases hsame with ⟨h1, h2⟩ | ⟨h1, h2⟩ <;> simp [h1, h2]

/-- C10: if a link between the resolved source and target ids already
exists in either direction, `addLink` returns `null` and leaves the link
state unchanged; consequently, after any sequence of `addLink` calls
starting from the empty state the link set holds at most one link per
unordered pair of node ids. -/
theorem c10_addLink_no_duplicate_pairs :
    (∀ (links : List HookLink) (source target : NodeRef) (ty : Option String),
      linkExistsB links (resolveNodeRef source) (resolveNodeRef target) = true →
      addLink links source target ty = (none, links)) ∧
    (∀ calls : List (NodeRef × NodeRef × Option String),
      atMostOnePerPair (runAddLinks calls)) := by
  constructor
  · intro links source target ty h
    simp [addLink, h]
  · intro calls
    have general : ∀ (cs : List (NodeRef × NodeRef × Option String))
        (links : List HookLink), atMostOnePerPair links →
        atMostOnePerPair
          (cs.foldl (fun ls c => (addLink ls c.1 c.2.1 c.2.2).2) links) := by
      intro cs
      induction cs with
      | nil => intro links h; simpa using h
      | cons c cs ih =>
        intro links h
        exact ih _ (addLink_preserves_atMostOnePerPair h _ _ _)
    exact general calls [] (by simp [atMostOnePerPair])

/-- C10, witness: with a link "a"→"b" already present, adding "b"→"a"
returns `null` and leaves the state unchanged. -/
theorem c10_addLink_witness :
    addLink hookLinksExample (NodeRef.str "b") (NodeRef.str "a") none =
      (none, hookLinksExample) :=
  c10_addLink_no_duplicate_pairs.1 hookLinksExample
    (NodeRef.str "b") (NodeRef.str "a") none (by decide)

/-! ## Claim C2 — reconciliation preserves surviving node positions -/

/-- C2: for every node id present both in the rendered snapshot and in the
newly fetched one, `updateGraph`'s reconciliation leaves the node's
position exactly as it was immediately before reconciliation (positions
are saved up front and restored after the add/remove diff, and the layout
only runs when no position existed before).  Rendered ids are pairwise
distinct, as cytoscape enforces. -/
theorem c2_reconciliation_preserves_position
    (prev : List RenderedNode) (elements : List String)
    (layoutPos : String → ℚ × ℚ) (id : String) (pos : ℚ × ℚ)
    (huniq : (prev.map RenderedNode.id).Nodup)
    (hprev : renderedPosition prev id = some pos)
    (hnew : id ∈ elements) :
    renderedPosition (updateGraph prev elements layoutPos) id = some pos := by
  unfold renderedPosition at hprev
  rw [Option.map_eq_some'] at hprev
  obtain ⟨n, hfind, hpos⟩ := hprev
  have hnid : n.id = id := by simpa using List.find?_some hfind
  have hnmem : n ∈ prev := List.mem_of_find?_eq_some hfind
  have hsaved : savedPosition prev id = some pos := by
    unfold savedPosition
    rw [← find?_key_eq_getLast?_filter RenderedNode.id id prev huniq, hfind]
    simpa using hpos
  have hnotempty : ¬ (prev.isEmpty = true ∧ ¬ elements.isEmpty = true) := by
    rintro ⟨h1, _⟩
    rw [List.isEmpty_iff] at h1
    subst h1
    cases hnmem
  unfold updateGraph
  rw [if_neg hnotempty]
  unfold renderedPosition
  rw [List.find?_map]
  have hcomp :
      ((fun m : RenderedNode => m.id == id) ∘
        (fun m : RenderedNode =>
          match savedPosition prev m.id with
          | some p => { m with x := p.1, y := p.2 }
          | none => m)) = (fun m : RenderedNode => m.id == id) := by
    funext m
    simp only [Function.comp_apply]
    cases savedPosition prev m.id <;> rfl
  rw [hcomp]
  have hkept : (prev.filter
      (fun m => elements.contains m.id)).find? (fun m => m.id == id) = some n :=
    find?_filter_keep hfind (by
      rw [hnid]
      exact List.elem_eq_true_of_mem hnew)
  rw [List.find?_append, hkept]
  simp only [Option.or_some, Option.map_some']
  rw [hnid, hsaved]

/-- C2, witness: a node rendered at (5, 7) that survives into the new
snapshot (which also introduces node "b") is still at (5, 7) after
reconciliation. -/
theorem c2_reconciliation_witness :
    renderedPosition
      (updateGraph [ { id := "a", x := 5, y := 7 } ] ["a", "b"]
        (fun _ => (0, 0))) "a" = some (5, 7) :=
  c2_reconciliation_preserves_position _ _ _ _ _ (by decide) (by decide)
    (by decide)

/-! ## Claim C3 — radial pin placement -/

/-- C3: for a node with `n ≥ 1` frame-element pins, pin `i` is placed at
angle `(i / n) · 2π − π/2` (the source computes `i · (2π/n) − π/2`, the
same real number), and every pin lies at the identical radial distance
`radius + 15` from the node center (squared norm `(radius + 15)²`). -/
theorem c3_pin_angles_and_radius (node : PinNode) (i : ℕ)
    (hi : i < node.frameElements.length) :
    (calculatePinPositions node).length = node.frameElements.length ∧
    ((calculatePinPositions node).getD i default).x =
      Real.cos (((i : ℝ) / (node.frameElements.length : ℝ)) * (2 * Real.pi) -
        Real.pi / 2) * (((pinNodeRadius node : ℚ) : ℝ) + 15) ∧
    ((calculatePinPositions node).getD i default).y =
      Real.sin (((i : ℝ) / (node.frameElements.length : ℝ)) * (2 * Real.pi) -
        Real.pi / 2) * (((pinNodeRadius node : ℚ) : ℝ) + 15) ∧
    ((calculatePinPositions node).getD i default).x ^ 2 +
      ((calculatePinPositions node).getD i default).y ^ 2 =
      (((pinNodeRadius node : ℚ) : ℝ) + 15) ^ 2 := by
  have hn0 : (0 : ℕ) < node.frameElements.length :=
    Nat.lt_of_le_of_lt (Nat.zero_le i) hi
  have hne : node.frameElements ≠ [] := by
    intro h
    rw [h] at hn0
    exact absurd hn0 (by simp)
  have hempty : node.frameElements.isEmpty = false := by
    simpa [List.isEmpty_iff] using hne
  have hmain : calculatePinPositions node =
      node.frameElements.mapIdx (fun index element =>
        { x := Real.cos ((index : ℝ) *
            ((2 * Real.pi) / (node.frameElements.length : ℝ)) - Real.pi / 2) *
              (((pinNodeRadius node : ℚ) : ℝ) + 15)
          y := Real.sin ((index : ℝ) *
            ((2 * Real.pi) / (node.frameElements.length : ℝ)) - Real.pi / 2) *
              (((pinNodeRadius node : ℚ) : ℝ) + 15)
          element := element }) := by
    unfold calculatePinPositions
    rw [if_neg (by simp [hempty])]
  have hlen : (calculatePinPositions node).length =
      node.frameElements.length := by
    rw [hmain, List.length_mapIdx]
  refine ⟨hlen, ?_⟩
  have hib : i < (calculatePinPositions node).length := by
    rw [hlen]
    exact hi
  rw [hmain] at hib ⊢
  rw [List.getD_eq_getElem _ _ hib, List.getElem_mapIdx]
  have hangle : (i : ℝ) *
      ((2 * Real.pi) / (node.frameElements.length : ℝ)) - Real.pi / 2 =
      ((i : ℝ) / (node.frameElements.length : ℝ)) * (2 * Real.pi) -
        Real.pi / 2 := by
    ring
  refine ⟨by rw [← hangle], by rw [← hangle], ?_⟩
  have hpyth := Real.sin_sq_add_cos_sq ((i : ℝ) *
    ((2 * Real.pi) / (node.frameElements.length : ℝ)) - Real.pi / 2)
  linear_combination (((pinNodeRadius node : ℚ) : ℝ) + 15) ^ 2 * hpyth

/-- C3, witness: the single pin of `pinNodeExample` (default radius 20)
sits at angle `(0/1)·2π − π/2` and squared distance `35²`. -/
theorem c3_pin_angles_witness :
    (calculatePinPositions pinNodeExample).length =
      pinNodeExample.frameElements.length ∧
    ((calculatePinPositions pinNodeExample).getD 0 default).x =
      Real.cos (((0 : ℕ) : ℝ) / (pinNodeExample.frameElements.length : ℝ) *
        (2 * Real.pi) - Real.pi / 2) *
        (((pinNodeRadius pinNodeExample : ℚ) : ℝ) + 15) ∧
    ((calculatePinPositions pinNodeExample).getD 0 default).y =
      Real.sin (((0 : ℕ) : ℝ) / (pinNodeExample.frameElements.length : ℝ) *
        (2 * Real.pi) - Real.pi / 2) *
        (((pinNodeRadius pinNodeExample : ℚ) : ℝ) + 15) ∧
    ((calculatePinPositions pinNodeExample).getD 0 default).x ^ 2 +
      ((calculatePinPositions pinNodeExample).getD 0 default).y ^ 2 =
      (((pinNodeRadius pinNodeExample : ℚ) : ℝ) + 15) ^ 2 :=
  c3_pin_angles_and_radius pinNodeExample 0 (by decide)

/-- Updating the node matched by id keeps it the first id match, with the
update applied, whenever the update preserves node ids. -/
theorem find?_updateNodeById {nodes : List GestureNode} {d : String}
    {n0 : GestureNode} {f : GestureNode → GestureNode}
    (hid : ∀ n, (f n).id = n.id)
    (h : nodes.find? (fun n => n.id == d) = some n0) :
    (updateNodeById nodes d f).find? (fun n => n.id == d) = some (f n0) := by
  unfold updateNodeById
  rw [List.find?_map]
  have hcomp : ((fun n : GestureNode => n.id == d) ∘
      (fun n => if n.id == d then f n else n)) =
      (fun n : GestureNode => n.id == d) := by
    funext n
    simp only [Function.comp_apply]
    by_cases hn : (n.id == d) = true
    · simp [hn, hid]
    · simp [hn]
  rw [hcomp, h]
  have hn0 : (n0.id == d) = true :=
    @List.find?_some _ (fun n : GestureNode => n.id == d) n0 nodes h
  simp only [Option.map_some']
  rw [if_pos hn0]

/-- A pointer-move during a recognized reposition drag (no modifier, past
the drag delay) pins the dragged node to the pointer and changes nothing
else. -/
theorem gestureStep_move_of_repo {s : GestureState} {d : String} (x y : ℚ)
    (hidr : s.isDraggingRef = false) (hskip : s.repoSkipped = false)
    (hdrag : s.repoIsDragging = true) (hdn : s.draggedNode = some d) :
    gestureStep s (GestureEvent.pointerMove x y) =
      { s with nodes := (updateNodeById s.nodes d
          (fun n => { n with fx := some x, fy := some y })) } := by
  simp [gestureStep, hidr, hskip, repoDragged, hdrag, hdn]

/-- A pointer-up ending a recognized reposition drag releases the pin
(`fx = fy = null`) and changes nothing else. -/
theorem gestureStep_up_of_repo {s : GestureState} {d : String}
    (hidr : s.isDraggingRef = false) (hskip : s.repoSkipped = false)
    (hdrag : s.repoIsDragging = true) (hdn : s.draggedNode = some d) :
    gestureStep s GestureEvent.pointerUp =
      { s with repoIsDragging := false,
               nodes := (updateNodeById s.nodes d
                 (fun n => { n with fx := none, fy := none })) } := by
  simp [gestureStep, hidr, hskip, repoDragEnded, hdrag, hdn]

/-- Any sequence of pointer-moves during a recognized reposition drag keeps
the gesture flags stable (in particular the dialog stays closed) and keeps
the dragged node present. -/
theorem runGesture_moves_invariant (d : String) (moves : List (ℚ × ℚ)) :
    ∀ s : GestureState, s.showDialog = false → s.isDraggingRef = false →
      s.repoSkipped = false → s.repoIsDragging = true →
      s.draggedNode = some d →
      (∃ n1, s.nodes.find? (fun n => n.id == d) = some n1) →
      (runGesture s
          (moves.map (fun p => GestureEvent.pointerMove p.1 p.2))).showDialog
          = false ∧
      (runGesture s
          (moves.map (fun p => GestureEvent.pointerMove p.1 p.2))).isDraggingRef
          = false ∧
      (runGesture s
          (moves.map (fun p => GestureEvent.pointerMove p.1 p.2))).repoSkipped
          = false ∧
      (runGesture s
          (moves.map (fun p => GestureEvent.pointerMove p.1 p.2))).repoIsDragging
          = true ∧
      (runGesture s
          (moves.map (fun p => GestureEvent.pointerMove p.1 p.2))).draggedNode
          = some d ∧
      ∃ n2, (runGesture s
          (moves.map (fun p => GestureEvent.pointerMove p.1 p.2))).nodes.find?
          (fun n => n.id == d) = some n2 := by
  induction moves with
  | nil =>
    intro s h1 h2 h3 h4 h5 h6
    exact ⟨h1, h2, h3, h4, h5, h6⟩
  | cons q qs ih =>
    intro s h1 h2 h3 h4 h5 h6
    obtain ⟨n1, hn1⟩ := h6
    have hstep := gestureStep_move_of_repo q.1 q.2 h2 h3 h4 h5
    have hrun : runGesture s
        ((q :: qs).map (fun p => GestureEvent.pointerMove p.1 p.2)) =
        runGesture (gestureStep s (GestureEvent.pointerMove q.1 q.2))
          (qs.map (fun p => GestureEvent.pointerMove p.1 p.2)) := rfl
    rw [hrun, hstep]
    exact ih _ h1 h2 h3 h4 h5
      ⟨{ n1 with fx := some q.1, fy := some q.2 },
        @find?_updateNodeById s.nodes d n1
          (fun n => { n with fx := some q.1, fy := some q.2 })
          (fun n => rfl) hn1⟩

/-! ## Claim C6 — assignment drop on empty background aborts silently -/

/-- C6: if an assignment drag from `src` is released at a point where no
node other than the source passes the 20 px hit test, `handleNodeDragEnd`
aborts silently: the confirmation dialog is not opened, the assignment data
is untouched, the temporary drag link is hidden, and both the link set and
the node list (hence every pinned `fx`/`fy`) are exactly as before the
drop. -/
theorem c6_empty_drop_aborts_silently (s : GestureState) (src : String)
    (p : ℚ × ℚ)
    (hdrag : s.isDraggingRef = true)
    (hsrc : s.dragStartNode = some src)
    (hpos : s.dragEndPos = some p)
    (hmiss : ∀ n ∈ s.nodes, n.id ≠ src → hitTest p n = false) :
    (handleNodeDragEnd s).showDialog = s.showDialog ∧
    (handleNodeDragEnd s).assignmentData = s.assignmentData ∧
    (handleNodeDragEnd s).tempLinkVisible = false ∧
    (handleNodeDragEnd s).links = s.links ∧
    (handleNodeDragEnd s).nodes = s.nodes := by
  cases hfind : s.nodes.find? (hitTest p) with
  | none =>
    simp [handleNodeDragEnd, hdrag, hsrc, hpos, hfind]
  | some t =>
    have ht : t.id = src := by
      by_contra hne
      have hfalse := hmiss t (List.mem_of_find?_eq_some hfind) hne
      have htrue := List.find?_some hfind
      rw [hfalse] at htrue
      cases htrue
    simp [handleNodeDragEnd, hdrag, hsrc, hpos, hfind, ht]

/-- C6, witness: releasing the drag from node "1" back over (50, 50) —
within 20 px of node "1" only — changes neither the dialog state, the
assignment data, the links, nor the nodes, and hides the temporary link. -/
theorem c6_empty_drop_witness :
    (handleNodeDragEnd c6StateExample).showDialog =
        c6StateExample.showDialog ∧
    (handleNodeDragEnd c6StateExample).assignmentData =
        c6StateExample.assignmentData ∧
    (handleNodeDragEnd c6StateExample).tempLinkVisible = false ∧
    (handleNodeDragEnd c6StateExample).links = c6StateExample.links ∧
    (handleNodeDragEnd c6StateExample).nodes = c6StateExample.nodes :=
  c6_empty_drop_aborts_silently c6StateExample "1" (50, 50) (by decide)
    (by decide) (by decide) (by
      intro n hn hne
      simp only [c6StateExample, initGestureState, gestureNodesExample,
        List.mem_cons, List.not_mem_nil, or_false] at hn
      rcases hn with h | h
      · rw [h] at hne
        exact absurd rfl hne
      · rw [h]
        simp only [hitTest, numTruthy]
        norm_num)

/-! ## Claim C7 — modifier-less drag repositions and never prompts -/

/-- C7: a pointer drag on node `d` performed without the assignment
modifier (Ctrl/Meta) never opens the assignment confirmation dialog —
the assignment drag behavior's filter rejects the gesture — and instead
repositions the node: once the drag-delay timer fires, every pointer move
pins the node's fixed position `(fx, fy)` to the pointer, and the release
clears the pin (`fx = fy = null`). -/
theorem c7_unmodified_drag_repositions_without_prompt
    (nodes : List GestureNode) (links : List DLink) (d : String)
    (n0 : GestureNode) (moves : List (ℚ × ℚ)) (x y : ℚ)
    (hfind : nodes.find? (fun n => n.id == d) = some n0) :
    (runGesture (initGestureState nodes links)
        (c7Events d moves x y)).showDialog = false ∧
    ((runGesture (initGestureState nodes links)
        (c7Events d moves x y)).nodes.find? (fun n => n.id == d)).map
        (fun n => (n.fx, n.fy)) = some (some x, some y) ∧
    (gestureStep (runGesture (initGestureState nodes links)
        (c7Events d moves x y)) GestureEvent.pointerUp).showDialog = false ∧
    ((gestureStep (runGesture (initGestureState nodes links)
        (c7Events d moves x y)) GestureEvent.pointerUp).nodes.find?
        (fun n => n.id == d)).map (fun n => (n.fx, n.fy)) =
      some (none, none) := by
  have hlead : runGesture (initGestureState nodes links)
      (c7Events d moves x y) =
      runGesture
        { initGestureState nodes links with
          draggedNode := some d,
          repoIsDragging := true,
          nodes := (updateNodeById nodes d
            (fun n => { n with fx := n.x, fy := n.y })) }
        (moves.map (fun p => GestureEvent.pointerMove p.1 p.2) ++
          [GestureEvent.pointerMove x y]) := rfl
  have hsplit : runGesture
      { initGestureState nodes links with
        draggedNode := some d,
        repoIsDragging := true,
        nodes := (updateNodeById nodes d
          (fun n => { n with fx := n.x, fy := n.y })) }
      (moves.map (fun p => GestureEvent.pointerMove p.1 p.2) ++
        [GestureEvent.pointerMove x y]) =
      gestureStep
        (runGesture
          { initGestureState nodes links with
            draggedNode := some d,
            repoIsDragging := true,
            nodes := (updateNodeById nodes d
              (fun n => { n with fx := n.x, fy := n.y })) }
          (moves.map (fun p => GestureEvent.pointerMove p.1 p.2)))
        (GestureEvent.pointerMove x y) := by
    unfold runGesture
    rw [List.foldl_append]
    rfl
  obtain ⟨h1, h2, h3, h4, h5, n2, hn2⟩ :=
    runGesture_moves_invariant d moves
      { initGestureState nodes links with
        draggedNode := some d,
        repoIsDragging := true,
        nodes := (updateNodeById nodes d
          (fun n => { n with fx := n.x, fy := n.y })) }
      rfl rfl rfl rfl rfl
      ⟨{ n0 with fx := n0.x, fy := n0.y },
        @find?_updateNodeById nodes d n0
          (fun n => { n with fx := n.x, fy := n.y }) (fun n => rfl) hfind⟩
  have hmove := gestureStep_move_of_repo x y h2 h3 h4 h5
  have hmid : runGesture (initGestureState nodes links)
      (c7Events d moves x y) =
      { runGesture
          { initGestureState nodes links with
            draggedNode := some d,
            repoIsDragging := true,
            nodes := (updateNodeById nodes d
              (fun n => { n with fx := n.x, fy := n.y })) }
          (moves.map (fun p => GestureEvent.pointerMove p.1 p.2)) with
        nodes := (updateNodeById
          (runGesture
            { initGestureState nodes links with
              draggedNode := some d,
              repoIsDragging := true,
              nodes := (updateNodeById nodes d
                (fun n => { n with fx := n.x, fy := n.y })) }
            (moves.map (fun p => GestureEvent.pointerMove p.1 p.2))).nodes d
          (fun n => { n with fx := some x, fy := some y })) } := by
    rw [hlead, hsplit, hmove]
  have hnmid : (runGesture (initGestureState nodes links)
      (c7Events d moves x y)).nodes.find? (fun n => n.id == d) =
      some { n2 with fx := some x, fy := some y } := by
    rw [hmid]
    exact @find?_updateNodeById _ d n2
      (fun n => { n with fx := some x, fy := some y }) (fun n => rfl) hn2
  refine ⟨by rw [hmid]; exact h1, by rw [hnmid]; rfl, ?_, ?_⟩
  · have hup := @gestureStep_up_of_repo
      (runGesture (initGestureState nodes links) (c7Events d moves x y)) d
      (by rw [hmid]; exact h2) (by rw [hmid]; exact h3)
      (by rw [hmid]; exact h4) (by rw [hmid]; exact h5)
    rw [hup]
    show (runGesture (initGestureState nodes links)
      (c7Events d moves x y)).showDialog = false
    rw [hmid]
    exact h1
  · have hup := @gestureStep_up_of_repo
      (runGesture (initGestureState nodes links) (c7Events d moves x y)) d
      (by rw [hmid]; exact h2) (by rw [hmid]; exact h3)
      (by rw [hmid]; exact h4) (by rw [hmid]; exact h5)
    rw [hup]
    show ((updateNodeById (runGesture (initGestureState nodes links)
        (c7Events d moves x y)).nodes d
        (fun n => { n with fx := none, fy := none })).find?
        (fun n => n.id == d)).map (fun n => (n.fx, n.fy)) = some (none, none)
    rw [@find?_updateNodeById _ d { n2 with fx := some x, fy := some y }
      (fun n => { n with fx := none, fy := none }) (fun n => rfl) hnmid]
    rfl

/-- C7, witness: the modifier-less drag of node "1" to (3, 4) leaves the
dialog closed, pins the node at (3, 4) during the drag, and clears the pin
on release. -/
theorem c7_unmodified_drag_witness :
    (runGesture (initGestureState gestureNodesExample [])
        (c7Events "1" [] 3 4)).showDialog = false ∧
    ((runGesture (initGestureState gestureNodesExample [])
        (c7Events "1" [] 3 4)).nodes.find? (fun n => n.id == "1")).map
        (fun n => (n.fx, n.fy)) = some (some 3, some 4) ∧
    (gestureStep (runGesture (initGestureState gestureNodesExample [])
        (c7Events "1" [] 3 4)) GestureEvent.pointerUp).showDialog = false ∧
    ((gestureStep (runGesture (initGestureState gestureNodesExample [])
        (c7Events "1" [] 3 4)) GestureEvent.pointerUp).nodes.find?
        (fun n => n.id == "1")).map (fun n => (n.fx, n.fy)) =
      some (none, none) :=
  c7_unmodified_drag_repositions_without_prompt gestureNodesExample [] "1"
    { id := "1", x := some 50, y := some 50, fx := none, fy := none }
    [] 3 4 (by decide)

end Arbitrarium
